import Mathlib

/-
Shallow embedding of the multi-stage property-analysis pipeline of the
curam-ai-python-v2 repository, covering:

  src/services/property_service.py  (PropertyAnalysisService)
  src/services/llm_service.py       (LLMService)
  src/services/rss_service.py       (UpdatedPropertyService, summary handling)
  src/config.py                     (Config constants used by the pipeline)

Conventions of the embedding:

  * Python strings are Lean `String`s; Python `len`, slicing and the `in`
    substring test act on code points, which matches `String.data`.
  * The wall clock (`datetime.now()` renderings) is passed explicitly as a
    `Clock` value.
  * The two outbound LLM network calls and the RSS fetches are oracles held
    inside the service records: a call maps a prompt to generated text or to
    the text of the exception the client library raised.
  * Statements that can raise a Python exception are modelled in
    `Except PyErr`; a total Python expression is a total Lean function.
  * Heterogeneous result dictionaries are modelled by inductive types with
    one constructor per dictionary shape the source can build, and a `keys`
    function recording the keys of each shape.
-/

namespace CuramAi

/-! ### Python-semantics helpers -/

/-- `listStarts n h`: `n` is a leading run of `h` (character lists). -/
def listStarts : List Char → List Char → Bool
  | [], _ => true
  | _ :: _, [] => false
  | a :: as, b :: bs => a == b && listStarts as bs

/-- `listHasSub n h`: `n` occurs contiguously inside `h`. -/
def listHasSub (n : List Char) : List Char → Bool
  | [] => listStarts n []
  | b :: bs => listStarts n (b :: bs) || listHasSub n bs

/-- The Python substring test `needle in haystack` on strings. -/
def strIn (needle haystack : String) : Bool :=
  listHasSub needle.data haystack.data

/-- Python `str.lower()`, per code point. -/
def strLower (s : String) : String := String.mk (s.data.map Char.toLower)

/-- Python truthiness of a value that is either a string or None: None and
the empty string are falsy. -/
def pyTruthy : Option String → Bool
  | none => false
  | some s => !s.isEmpty

/-- Python `"\n".join(parts)`. -/
def joinLines : List String → String
  | [] => ""
  | [x] => x
  | x :: y :: xs => x ++ "\n" ++ joinLines (y :: xs)

/-- Concatenation of a list of text blocks (successive `+=` on a string, or
a join with the empty separator). -/
def concatAll : List String → String
  | [] => ""
  | x :: xs => x ++ concatAll xs

/-- Python string slicing `s[:n]` (by code points). -/
def pySliceStr (s : String) (n : Nat) : String := String.mk (s.data.take n)

/-- Python `enumerate(xs, start)`. -/
def pyEnum : Nat → List α → List (Nat × α)
  | _, [] => []
  | n, x :: xs => (n, x) :: pyEnum (n + 1) xs

/-- Python keyword-argument binding: after `posBound` parameters of the
callee have been bound positionally, every keyword name of the call must
match one of the remaining declared parameters, otherwise the call raises
TypeError (none of the service methods declares **kwargs). -/
def pyKwargsOk (params : List String) (posBound : Nat) (kwargNames : List String) : Bool :=
  kwargNames.all (fun k => (params.drop posBound).contains k)

/-- A Python exception, as far as the pipeline distinguishes them. -/
inductive PyErr where
  | typeError (msg : String)
  | keyError (key : String)
deriving DecidableEq, Repr

/-- `str(e)` on a caught exception. -/
def PyErr.str : PyErr → String
  | .typeError m => m
  | .keyError k => "KeyError: " ++ k

/-! ### Text-containment predicates used by the theorems -/

/-- `needle` occurs contiguously inside `haystack`. -/
def containsStr (needle haystack : String) : Prop :=
  ∃ pre post : List Char, haystack.data = pre ++ needle.data ++ post

/-- `haystack` starts with `needle`. -/
def startsWithStr (needle haystack : String) : Prop :=
  ∃ post : List Char, haystack.data = needle.data ++ post

/-- `haystack` ends with `needle`. -/
def endsWithStr (needle haystack : String) : Prop :=
  ∃ pre : List Char, haystack.data = pre ++ needle.data

/-! ### The ambient wall clock -/

/-- The three `datetime.now()` renderings the services format
(property_service.py lines 125, 140 and 230). -/
structure Clock where
  /-- strftime `%Y-%m-%d` -/
  dateStr : String
  /-- strftime `%Y-%m-%d %H:%M` -/
  dateTimeStr : String
  /-- strftime `%B %d, %Y at %I:%M %p` -/
  prettyStr : String

/-! ### Config (src/config.py) -/

/-- config.py lines 59-65: `Config.PRESET_QUESTIONS`. -/
def presetQuestions : List String :=
  ["What new development applications were submitted in Brisbane this month?",
   "Which Brisbane suburbs are trending in property news?",
   "Are there any major infrastructure projects affecting property values?",
   "What zoning changes have been approved recently?",
   "Which areas have the most development activity?"]

/-- config.py lines 24-28: `Config.CLAUDE_MODELS` in priority order. -/
def claudeModels : List String :=
  ["claude-3-5-sonnet-20241022", "claude-3-haiku-20240307", "claude-3-sonnet-20240229"]

/-- config.py lines 31-35: `Config.GEMINI_MODELS` in priority order. -/
def geminiModels : List String :=
  ["gemini-1.5-flash", "gemini-1.5-pro", "gemini-pro"]

/-! ### Articles and context sources -/

/-- One news article as the RSS collaborator returns it: the keys the
services read from an article dictionary (property_service.py lines
100-110, rss_service.py lines 97-143). `brisbane_relevant` models the
truthiness of `article.get` on that key. -/
structure Article where
  source : String
  title : String
  summary : String
  link : String
  published : String
  brisbane_relevant : Bool

/-- One contextual data record of the pipeline. The source builds exactly
two dictionary shapes: the rss_news shape (property_service.py lines
100-110, all keys present) and the fallback shape (lines 120-128, which has
no `published` and no `link` key); a missing key is `none`, and reading it
with bracket access raises KeyError. `typ` models the `type` key. -/
structure ContextSource where
  source : String
  title : String
  summary : String
  link : Option String
  published : Option String
  typ : String
  date : String
  relevance : String
  real_data : Bool

/-- property_service.py lines 100-110: one rss_news data source built from
a fetched article. -/
def mkRssNewsSource (a : Article) : ContextSource :=
  { source := a.source, title := a.title, summary := a.summary,
    link := some a.link, published := some a.published, typ := "rss_news",
    date := a.published,
    relevance := if a.brisbane_relevant then "high" else "medium",
    real_data := true }

/-- property_service.py lines 118-128: `_get_fallback_data_sources`. -/
def fallbackDataSources (c : Clock) : List ContextSource :=
  [{ source := "Australian Property Market Analysis",
     title := "RSS feeds temporarily unavailable",
     summary := "Analysis based on general Australian property market knowledge",
     link := none, published := none, typ := "fallback",
     date := c.dateStr, relevance := "medium", real_data := false }]

/-! ### Provider results (src/services/llm_service.py) -/

/-- The dictionary `LLMService` returns for one provider call: either the
success dictionary of llm_service.py lines 128-134 / 153-159, or the error
dictionary of `_error_response` (lines 202-209), whose `analysis` key holds
None and which has no `model_used` key. -/
inductive ProviderResult where
  | ok (analysis model_used : String) (processing_time : Nat) (provider : String)
  | err (error : String)

/-- `result[\'success\']`. -/
def ProviderResult.success : ProviderResult → Bool
  | .ok .. => true
  | .err _ => false

/-- `result.get(\'analysis\', ...)`: the error dictionary stores None under
the key, so the default is never used. -/
def ProviderResult.getAnalysis : ProviderResult → Option String
  | .ok a _ _ _ => some a
  | .err _ => none

/-- `result.get(\'model_used\')`: absent from the error dictionary. -/
def ProviderResult.getModelUsed : ProviderResult → Option String
  | .ok _ m _ _ => some m
  | .err _ => none

/-! ### LLMService (src/services/llm_service.py) -/

/-- State of `LLMService` (llm_service.py lines 14-22) after
initialization. `claudeAvailable` is `claude_client is not None`,
`geminiAvailable` is `gemini_model is not None`. The oracles model the two
outbound network calls: a prompt maps to the generated text and elapsed
wall-clock time, or to the text of the exception the client raised. -/
structure LLMService where
  claudeAvailable : Bool
  geminiAvailable : Bool
  workingClaudeModel : Option String
  workingGeminiModel : Option String
  claudeRespond : String → Except String (String × Nat)
  geminiRespond : String → Except String (String × Nat)

/-- llm_service.py lines 165-177: `_create_brisbane_prompt`. -/
def createBrisbanePrompt (question : String) : String :=
  "You are a Brisbane property research specialist. Analyze this question and provide insights:\n\nQuestion: \"" ++
  question ++
  "\"\n\nPlease provide:\n1. What type of property question this is (development, market, infrastructure, zoning, etc.)\n2. Which specific Brisbane suburbs/areas are most relevant\n3. What data sources would help answer this question\n4. Key insights to look for in the data\n\nKeep your response concise and focused specifically on Brisbane, Queensland, Australia."

/-- llm_service.py lines 181-191: the base Gemini prompt. -/
def geminiBasePrompt (question : String) : String :=
  "You are a Brisbane property market analyst. Provide a comprehensive answer to this question:\n\nQuestion: \"" ++
  question ++
  "\"\n\nPlease provide a detailed Brisbane property market analysis that directly answers the question. Include:\n- Specific Brisbane suburbs and areas\n- Current market trends and data\n- Investment or development implications\n- Professional insights for property industry\n\nFocus on actionable information for Brisbane property professionals."

/-- llm_service.py lines 179-200: `_create_gemini_prompt`; the prior
provider text is appended only when `claude_context` is truthy (neither
None nor the empty string). -/
def createGeminiPrompt (question : String) (claude_context : Option String) : String :=
  if pyTruthy claude_context then
    geminiBasePrompt question ++ "\n\nInitial Research Context: " ++
      claude_context.getD "" ++
      "\n\nBuild upon this context to provide your comprehensive analysis."
  else
    geminiBasePrompt question

/-- llm_service.py lines 111-138: `analyze_with_claude` — note it declares
exactly one parameter after `self`. -/
def analyzeWithClaude (svc : LLMService) (question : String) : ProviderResult :=
  if !svc.claudeAvailable then .err "Claude client not available"
  else
    match svc.claudeRespond (createBrisbanePrompt question) with
    | .ok (text, t) =>
        .ok text (svc.workingClaudeModel.getD "claude-3-5-sonnet-20241022") t "claude"
    | .error e => .err ("Claude analysis failed: " ++ e)

/-- llm_service.py lines 140-163: `analyze_with_gemini(self, question,
claude_context="")` — two parameters after `self`. -/
def analyzeWithGemini (svc : LLMService) (question : String)
    (claude_context : Option String) : ProviderResult :=
  if !svc.geminiAvailable then .err "Gemini model not available"
  else
    match svc.geminiRespond (createGeminiPrompt question claude_context) with
    | .ok (text, t) =>
        .ok text (svc.workingGeminiModel.getD "gemini-1.5-flash") t "gemini"
    | .error e => .err ("Gemini analysis failed: " ++ e)

/-- The parameter list of `analyze_with_claude` after `self`
(llm_service.py line 111). -/
def analyzeWithClaudeParams : List String := ["question"]

/-- The parameter list of `analyze_with_gemini` after `self`
(llm_service.py line 140). -/
def analyzeWithGeminiParams : List String := ["question", "claude_context"]

/-- The TypeError raised by the call at property_service.py line 31. -/
def claudeKwargTypeError : PyErr :=
  .typeError "analyze_with_claude got an unexpected keyword argument context"

/-- The TypeError the call at property_service.py lines 35-39 would raise. -/
def geminiKwargTypeError : PyErr :=
  .typeError "analyze_with_gemini got an unexpected keyword argument context"

/-- property_service.py line 31:
`self.llm_service.analyze_with_claude(question, context=rss_context)` —
one positional argument plus a `context` keyword, bound against the
parameter list of llm_service.py line 111. The keyword matches no declared
parameter, so the call raises TypeError before the method body runs; the
value passed under the keyword is therefore never read. -/
def callAnalyzeWithClaude (svc : LLMService) (question : String)
    (_rss_context : String) : Except PyErr ProviderResult :=
  if pyKwargsOk analyzeWithClaudeParams 1 ["context"] then
    pure (analyzeWithClaude svc question)
  else
    throw claudeKwargTypeError

/-- property_service.py lines 35-39:
`analyze_with_gemini(question, claude_result.get(\'analysis\', \'\'),
context=enhanced_context)` — two positional arguments plus a `context`
keyword, bound against the parameter list of llm_service.py line 140. -/
def callAnalyzeWithGemini (svc : LLMService) (question : String)
    (claude_analysis : Option String) (_enhanced_context : String) :
    Except PyErr ProviderResult :=
  if pyKwargsOk analyzeWithGeminiParams 2 ["context"] then
    pure (analyzeWithGemini svc question claude_analysis)
  else
    throw geminiKwargTypeError

/-! ### The RSS collaborator and context gathering
(src/services/property_service.py lines 77-128) -/

/-- The interface of the RSS collaborator consumed at property_service.py
lines 91 and 94 (the `RSSService` class itself is outside the core, per the
spec an external collaborator): a fetch returns articles or raises. -/
structure RssCollab where
  get_brisbane_news : Nat → Except String (List Article)
  get_recent_news : Nat → Except String (List Article)

/-- property_service.py line 86: the region keyword list. -/
def brisbaneKeywords : List String :=
  ["brisbane", "queensland", "qld", "gold coast", "sunshine coast"]

/-- property_service.py lines 85-87: case-insensitive substring match of
the region keywords against the question. -/
def isBrisbaneFocused (question : String) : Bool :=
  brisbaneKeywords.any (fun k => strIn k (strLower question))

/-- property_service.py lines 90-95: which fetch runs, and its bound. -/
def fetchArticles (rss : RssCollab) (question : String) :
    Except String (List Article) :=
  if isBrisbaneFocused question then rss.get_brisbane_news 6
  else rss.get_recent_news 8

/-- property_service.py lines 77-116: `_get_real_property_data_sources`.
Its own try/except turns an absent collaborator or a raising fetch into the
fallback list, so the function is total. -/
def getRealPropertyDataSources (rss : Option RssCollab) (question : String)
    (c : Clock) : List ContextSource :=
  match rss with
  | none => fallbackDataSources c
  | some r =>
    match fetchArticles r question with
    | .error _ => fallbackDataSources c
    | .ok articles => articles.map mkRssNewsSource

/-! ### The RSS context builder
(src/services/property_service.py lines 130-161) -/

/-- property_service.py lines 133-136: the neutral notice returned when no
usable data is present. -/
def rssUnavailableNotice : String :=
  "\n# Australian Property Market Analysis Context\nNote: Real-time RSS data is temporarily unavailable. Analysis based on general property market knowledge.\n"

/-- property_service.py line 154: the marker appended for a high-relevance
source. -/
def highRelevanceMarker : String := "- **Relevance**: 🔥 High relevance to query\n"

/-- property_service.py lines 138-143: the context header, carrying the
generation timestamp. -/
def rssContextHeader (c : Clock) : String :=
  "\n# Current Australian Property Market Data\nRetrieved from live industry RSS feeds on " ++
  c.dateTimeStr ++ "\n\n## Real Property News and Developments:\n"

/-- property_service.py lines 157-159: the closing instruction block. -/
def rssContextFooter : String :=
  "\n**Analysis Instructions**: This is REAL current Australian property market data from live industry RSS feeds including RealEstate.com.au, Smart Property Investment, and other authoritative sources. Provide comprehensive analysis using these actual market conditions and developments.\n"

/-- The text one loop iteration of lines 145-155 appends, for a source
whose `published` and `link` keys hold `pub` and `lnk`. -/
def sourceBlockText (i : Nat) (s : ContextSource) (pub lnk : String) : String :=
  concatAll
    ["\n### ", toString i, ". ", s.title,
     "\n- **Source**: ", s.source,
     "\n- **Published**: ", pub,
     "\n- **Summary**: ", s.summary,
     "\n- **Link**: ", lnk, "\n",
     if s.relevance == "high" then highRelevanceMarker else "",
     "\n"]

/-- One iteration of the source loop (lines 145-155): bracket access to the
`published` and `link` keys raises KeyError when the key is missing
(`published` is read first). -/
def sourceBlock (p : Nat × ContextSource) : Except PyErr String :=
  match p.2.published, p.2.link with
  | some pub, some lnk => .ok (sourceBlockText p.1 p.2 pub lnk)
  | none, _ => .error (PyErr.keyError "published")
  | some _, none => .error (PyErr.keyError "link")

/-- Run an exception-raising step over a list, stopping at the first
raise (the semantics of a Python for-loop whose body may raise). -/
def mapExcept (f : α → Except ε β) : List α → Except ε (List β)
  | [] => pure []
  | x :: xs => do
    let y ← f x
    let ys ← mapExcept f xs
    pure (y :: ys)

/-- property_service.py lines 130-161: `_build_rss_context`. The neutral
notice is returned when the source list is empty or its FIRST element
lacks a truthy `real_data` flag (`not data_sources or not
data_sources[0].get(\'real_data\')`); otherwise the header, the blocks of
the first six sources (`enumerate(data_sources[:6], 1)`) and the footer
are concatenated. The `question` parameter is unused, as in the source. -/
def buildRssContext (_question : String) (data_sources : List ContextSource)
    (c : Clock) : Except PyErr String :=
  match data_sources with
  | [] => .ok rssUnavailableNotice
  | s :: _ =>
    if !s.real_data then .ok rssUnavailableNotice
    else
      match mapExcept sourceBlock (pyEnum 1 (data_sources.take 6)) with
      | .error e => .error e
      | .ok blocks => .ok (rssContextHeader c ++ (concatAll blocks ++ rssContextFooter))

/-! ### The enhanced (chained) context
(src/services/property_service.py lines 163-181) -/

/-- The fixed text of lines 168-170, before the prior provider output. -/
def enhancedContextPre : String := "\n\n## Strategic Analysis Context (from Claude):\n"

/-- The fixed text of lines 172-179, after the prior provider output. -/
def enhancedContextPost : String :=
  "\n\n## Final Analysis Instructions:\nUsing the real Australian property market data above and the strategic analysis, provide a comprehensive, professional response that:\n1. Directly answers the user\'s question\n2. References specific information from the RSS sources\n3. Provides actionable insights based on current market conditions\n4. Uses a professional but accessible tone\n"

/-- property_service.py lines 163-181: `_build_enhanced_context`. When the
prior provider failed the context is returned unchanged. -/
def buildEnhancedContext (claude_result : ProviderResult) (rss_context : String) : String :=
  if claude_result.success then
    rss_context ++
      (enhancedContextPre ++ claude_result.getAnalysis.getD "" ++ enhancedContextPost)
  else rss_context

/-! ### The fallback generator
(src/services/property_service.py lines 241-293) -/

/-- Lines 245-259: the generic market-overview block. -/
def fallbackBase : String :=
  "Based on general Australian property market knowledge, here\'s an analysis of your question:\n\n**Current Australian Property Market Overview:**\nThe Australian property market shows varied performance across major cities, with strong fundamentals in key metropolitan areas and emerging growth in regional centers.\n\n**Key National Trends:**\n- Sydney and Melbourne: Established premium markets with selective growth\n- Brisbane and Perth: Strong growth potential with infrastructure investment\n- Adelaide and Regional Areas: Emerging opportunities with affordability focus\n\n**Market Factors to Consider:**\n- Interest rate environment and lending conditions\n- Population growth and migration patterns\n- Infrastructure development and transport connectivity\n- Government policy and regulatory changes"

/-- Lines 262-269: the development/planning paragraph. -/
def fallbackDevelopmentPara : String :=
  "\n\n**Development Activity Insights:**\nAustralian cities show strong development pipeline activity with focus on:\n- Mixed-use developments in transit-oriented locations\n- Medium-density housing in established suburbs\n- Commercial developments in CBD and growth corridors"

/-- Lines 271-278: the trend/market/growth paragraph. -/
def fallbackTrendPara : String :=
  "\n\n**Market Trend Analysis:**\nCurrent national trends indicate:\n- Continued urbanization driving inner-city demand\n- Regional growth supported by lifestyle migration\n- Technology and infrastructure driving value appreciation"

/-- Lines 280-287: the infrastructure/transport paragraph. -/
def fallbackInfraPara : String :=
  "\n\n**Infrastructure Impact:**\nMajor infrastructure projects across Australia:\n- Transport connectivity improving accessibility\n- Urban renewal projects creating new precincts\n- Technology infrastructure supporting modern development"

/-- Lines 289-291: the closing disclaimer. -/
def fallbackClosing : String :=
  "\n\n**Note**: This analysis is based on general market knowledge. For the most current data, our system typically provides real-time RSS feed analysis from RealEstate.com.au, Smart Property Investment, and other industry sources."

/-- property_service.py lines 241-293: `_generate_fallback_answer`, a pure
function of the question text (elif chain over keyword groups). -/
def generateFallbackAnswer (question : String) : String :=
  let ql := strLower question
  let base :=
    if ["development", "application", "planning"].any (fun w => strIn w ql) then
      fallbackBase ++ fallbackDevelopmentPara
    else if ["trend", "market", "growth"].any (fun w => strIn w ql) then
      fallbackBase ++ fallbackTrendPara
    else if ["infrastructure", "transport"].any (fun w => strIn w ql) then
      fallbackBase ++ fallbackInfraPara
    else fallbackBase
  base ++ fallbackClosing

/-! ### The answer formatter
(src/services/property_service.py lines 183-239) -/

/-- Lines 190-199: the first answer part (the primary body). -/
def answerPrimary (question : String) (claude_result gemini_result : ProviderResult) : String :=
  if gemini_result.success then gemini_result.getAnalysis.getD ""
  else if claude_result.success then claude_result.getAnalysis.getD ""
  else generateFallbackAnswer question

/-- Lines 206-210: the parts one source contributes to the attribution
list; a source without a truthy `real_data` flag contributes nothing, and
bracket access to `published` (under a truthy `link`) raises KeyError if
the key is missing. -/
def sourceEntryParts (s : ContextSource) : Except PyErr (List String) :=
  if s.real_data then
    let line1 := "- **" ++ s.source ++ "** " ++
      (if s.relevance == "high" then "🔥" else "📊") ++ ": " ++ s.title
    if pyTruthy s.link then
      match s.published with
      | some pub => .ok [line1, "  *Published: " ++ pub ++ "*"]
      | none => .error (PyErr.keyError "published")
    else .ok [line1]
  else .ok []

/-- Lines 201-217: the data-sources section of the final answer (top five
sources, `data_sources[:5]`). -/
def sourcesSectionParts (data_sources : List ContextSource) (has_real_data : Bool) :
    Except PyErr (List String) :=
  if !data_sources.isEmpty && has_real_data then
    match mapExcept sourceEntryParts (data_sources.take 5) with
    | .error e => .error e
    | .ok entries =>
      .ok (["### Real Australian Property Data Sources", ""] ++ entries.flatten ++ [""])
  else if !data_sources.isEmpty then
    .ok ["### Data Sources", "",
         "- Analysis based on general Australian property market knowledge",
         "- Real-time RSS data temporarily unavailable", ""]
  else .ok []

/-- Lines 219-237: the processing-summary block. -/
def summaryParts (claude_result gemini_result : ProviderResult)
    (data_sources : List ContextSource) (has_real_data : Bool) (c : Clock) :
    List String :=
  ["### AI Analysis Summary", "",
   "- **Claude 3.5 Sonnet**: " ++
     (if claude_result.success then "✅ Strategic Analysis Completed"
      else "❌ Strategic Analysis Failed"),
   "- **Gemini 1.5 Flash**: " ++
     (if gemini_result.success then "✅ Comprehensive Analysis Completed"
      else "❌ Comprehensive Analysis Failed"),
   "- **Data Sources**: " ++
     (if has_real_data then "✅ " ++ toString data_sources.length ++ " Real RSS Sources"
      else "⚠️ Fallback Data Used"),
   "- **Analysis Date**: " ++ c.prettyStr,
   "", "---",
   if has_real_data then
     "*Australian Property Intelligence - Real-time RSS data from RealEstate.com.au, Smart Property Investment, and industry sources*"
   else
     "*Australian Property Intelligence - Professional Multi-LLM Analysis System*"]

/-- property_service.py lines 183-239: `_format_comprehensive_answer` —
the ordered answer parts joined with line breaks. -/
def formatComprehensiveAnswer (question : String)
    (claude_result gemini_result : ProviderResult)
    (data_sources : List ContextSource) (has_real_data : Bool) (c : Clock) :
    Except PyErr String :=
  match sourcesSectionParts data_sources has_real_data with
  | .error e => .error e
  | .ok src =>
    .ok (joinLines
      ([answerPrimary question claude_result gemini_result, ""] ++ src ++
       summaryParts claude_result gemini_result data_sources has_real_data c))

/-! ### The pipeline result and the orchestrator
(src/services/property_service.py lines 21-75) -/

/-- Lines 51-59: the `processing_stages` dictionary of the success result.
`real_data_used` (and `has_real_data` at line 43) is computed as
`bool(data_sources)`: list non-emptiness. -/
structure ProcessingStages where
  claude_success : Bool
  gemini_success : Bool
  rss_data_sources : Nat
  data_sources_count : Nat
  claude_model : Option String
  gemini_model : Option String
  real_data_used : Bool

/-- Lines 51-59 as a function of the stage values. -/
def mkProcessingStages (claude_result gemini_result : ProviderResult)
    (data_sources : List ContextSource) : ProcessingStages :=
  { claude_success := claude_result.success,
    gemini_success := gemini_result.success,
    rss_data_sources := data_sources.length,
    data_sources_count := data_sources.length,
    claude_model := claude_result.getModelUsed,
    gemini_model := gemini_result.getModelUsed,
    real_data_used := !data_sources.isEmpty }

/-- The dictionary `analyze_property_question` returns: the success shape
of lines 46-63, or the error shape of lines 67-71. -/
inductive PipelineOutcome where
  | ok (question question_type final_answer : String) (stages : ProcessingStages)
      (claude_result gemini_result : ProviderResult)
      (data_sources : List ContextSource)
  | failure (error final_answer : String)

/-- `result[\'success\']`. -/
def PipelineOutcome.success : PipelineOutcome → Bool
  | .ok .. => true
  | .failure .. => false

/-- `result[\'final_answer\']`. -/
def PipelineOutcome.answer : PipelineOutcome → String
  | .ok _ _ a _ _ _ _ => a
  | .failure _ a => a

/-- The keys of the returned dictionary, in source order (lines 46-63 and
67-71). -/
def PipelineOutcome.keys : PipelineOutcome → List String
  | .ok .. =>
    ["success", "question", "question_type", "final_answer",
     "processing_stages", "claude_result", "gemini_result", "data_sources"]
  | .failure .. => ["success", "error", "final_answer"]

/-- property_service.py lines 73-75: `_determine_question_type`. -/
def determineQuestionType (question : String) : String :=
  if presetQuestions.contains question then "preset" else "custom"

/-- property_service.py lines 23-63: the try block of
`analyze_property_question`, stage by stage in source order. -/
def analyzeBody (svc : LLMService) (rss : Option RssCollab) (question : String)
    (c : Clock) : Except PyErr PipelineOutcome := do
  let question_type := determineQuestionType question
  let data_sources := getRealPropertyDataSources rss question c
  let rss_context ← buildRssContext question data_sources c
  let claude_result ← callAnalyzeWithClaude svc question rss_context
  let enhanced_context := buildEnhancedContext claude_result rss_context
  let gemini_result ←
    callAnalyzeWithGemini svc question claude_result.getAnalysis enhanced_context
  let final_answer ←
    formatComprehensiveAnswer question claude_result gemini_result data_sources
      (!data_sources.isEmpty) c
  pure (.ok question question_type final_answer
    (mkProcessingStages claude_result gemini_result data_sources)
    claude_result gemini_result data_sources)

/-- property_service.py lines 21-71: `analyze_property_question` with its
except handler (lines 65-71), which converts any exception of the body into
the three-key error dictionary. -/
def analyzePropertyQuestion (svc : LLMService) (rss : Option RssCollab)
    (question : String) (c : Clock) : Except PyErr PipelineOutcome :=
  match analyzeBody svc rss question c with
  | .ok r => .ok r
  | .error e => .ok (.failure e.str (generateFallbackAnswer question))

/-! ### UpdatedPropertyService summary truncation
(src/services/rss_service.py lines 97-143) -/

/-- rss_service.py line 138 (the same expression at lines 104 and 119):
`article.get(\'summary\', \'\')[:300] + "..." if
len(article.get(\'summary\', \'\')) > 300 else article.get(\'summary\', \'\')`. -/
def truncatedSummary (summary : String) : String :=
  if summary.data.length > 300 then pySliceStr summary 300 ++ "..." else summary

/-- The dictionary shape built at rss_service.py lines 132-143. -/
structure UpdatedSource where
  id : String
  name : String
  typ : String
  url : String
  title : String
  summary : String
  published : String
  source_feed : String
  success : Bool
  national_scope : Bool

/-- rss_service.py lines 132-143: one general Australian-property source
(`enumerate` is 0-based; the id uses `i+1`). -/
def mkAusPropertySource (i : Nat) (a : Article) : UpdatedSource :=
  { id := "aus_property_" ++ toString (i + 1),
    name := "Australian Property News - " ++ a.source,
    typ := "rss_feed", url := a.link, title := a.title,
    summary := truncatedSummary a.summary, published := a.published,
    source_feed := a.source, success := true, national_scope := true }

/-- rss_service.py lines 126-143: the general (non-Brisbane) branch of
`UpdatedPropertyService._get_real_data_sources`, over the fetched
`general_news` list (`general_news[:8]`). -/
def getRealDataSourcesGeneral (general_news : List Article) : List UpdatedSource :=
  (pyEnum 0 (general_news.take 8)).map (fun p => mkAusPropertySource p.1 p.2)

/-! ### Lemmas about the text predicates -/

theorem containsStr_intro (a n b : String) : containsStr n (a ++ n ++ b) :=
  ⟨a.data, b.data, by simp [String.data_append]⟩

theorem containsStr_empty (h : String) : containsStr "" h :=
  ⟨[], h.data, by simp⟩

theorem containsStr_left {n h : String} (x : String) (hc : containsStr n h) :
    containsStr n (x ++ h) := by
  obtain ⟨p, q, hd⟩ := hc
  exact ⟨x.data ++ p, q, by simp [String.data_append, hd]⟩

theorem containsStr_right {n h : String} (x : String) (hc : containsStr n h) :
    containsStr n (h ++ x) := by
  obtain ⟨p, q, hd⟩ := hc
  exact ⟨p, q ++ x.data, by simp [String.data_append, hd]⟩

theorem containsStr_trans {a b c : String} (hab : containsStr a b)
    (hbc : containsStr b c) : containsStr a c := by
  obtain ⟨p, q, hpq⟩ := hab
  obtain ⟨r, s, hrs⟩ := hbc
  exact ⟨r ++ p, q ++ s, by simp [hrs, hpq]⟩

theorem containsStr_mem {n h : String} (hc : containsStr n h) :
    ∀ ch ∈ n.data, ch ∈ h.data := by
  obtain ⟨p, q, hd⟩ := hc
  intro ch hch
  rw [hd]
  exact List.mem_append.mpr (Or.inl (List.mem_append.mpr (Or.inr hch)))

theorem startsWithStr_containsStr {n h : String} (hs : startsWithStr n h) :
    containsStr n h := by
  obtain ⟨q, hd⟩ := hs
  exact ⟨[], q, by simpa using hd⟩

theorem containsStr_concatAll {x : String} {l : List String} (hx : x ∈ l) :
    containsStr x (concatAll l) := by
  induction l with
  | nil => cases hx
  | cons y ys ih =>
    rcases List.mem_cons.mp hx with hx | hx
    · subst hx
      exact ⟨[], (concatAll ys).data, by simp [concatAll, String.data_append]⟩
    · exact containsStr_left y (ih hx)

theorem joinLines_startsWith (x : String) (xs : List String) (hne : xs ≠ []) :
    startsWithStr x (joinLines (x :: xs)) := by
  match xs, hne with
  | y :: ys, _ =>
    exact ⟨("\n" ++ joinLines (y :: ys)).data, by simp [joinLines, String.data_append]⟩

/-! ### Lemmas about the loop helpers -/

theorem pyEnum_mem_snd {p : Nat × α} :
    ∀ {n : Nat} {l : List α}, p ∈ pyEnum n l → p.2 ∈ l := by
  intro n l
  induction l generalizing n with
  | nil => intro h; cases h
  | cons x xs ih =>
    intro h
    rcases List.mem_cons.mp h with h | h
    · rw [show p.2 = x from congrArg Prod.snd h]
      exact List.mem_cons_self x xs
    · exact List.mem_cons_of_mem x (ih h)

theorem mapExcept_ok_of_forall {f : α → Except ε β} {l : List α}
    (h : ∀ x ∈ l, ∃ y, f x = .ok y) : ∃ ys, mapExcept f l = .ok ys := by
  induction l with
  | nil => exact ⟨[], rfl⟩
  | cons x xs ih =>
    obtain ⟨y, hy⟩ := h x (List.mem_cons_self x xs)
    obtain ⟨ys, hys⟩ := ih (fun z hz => h z (List.mem_cons_of_mem x hz))
    exact ⟨y :: ys, by rw [mapExcept, hy, hys]; rfl⟩

theorem mapExcept_mem {f : α → Except ε β} :
    ∀ {l : List α} {ys : List β}, mapExcept f l = .ok ys →
      ∀ {x : α}, x ∈ l → ∃ y ∈ ys, f x = .ok y := by
  intro l
  induction l with
  | nil => intro ys _ x hx; cases hx
  | cons a as ih =>
    intro ys hok x hx
    match hfa : f a with
    | .error e => rw [mapExcept, hfa] at hok; cases hok
    | .ok y =>
      match has : mapExcept f as with
      | .error e => rw [mapExcept, hfa, has] at hok; cases hok
      | .ok zs =>
        rw [mapExcept, hfa, has] at hok
        have hok2 : (Except.ok (y :: zs) : Except ε (List β)) = Except.ok ys := hok
        cases hok2
        rcases List.mem_cons.mp hx with hx | hx
        · subst hx
          exact ⟨y, List.mem_cons_self y zs, hfa⟩
        · obtain ⟨w, hw, hfw⟩ := ih has hx
          exact ⟨w, List.mem_cons_of_mem y hw, hfw⟩

/-! ### Lemmas about the pipeline stages -/

theorem sourceBlock_ok {p : Nat × ContextSource} {pub lnk : String}
    (hp : p.2.published = some pub) (hl : p.2.link = some lnk) :
    sourceBlock p = .ok (sourceBlockText p.1 p.2 pub lnk) := by
  simp [sourceBlock, hp, hl]

/-- Every source list `_get_real_property_data_sources` can hand to
`_build_rss_context` renders without an exception: the fallback list and
the empty list take the neutral-notice branch, and every rss_news source
has its `published` and `link` keys. -/
theorem buildRssContext_sources_ok (rss : Option RssCollab) (q : String) (c : Clock) :
    ∃ s, buildRssContext q (getRealPropertyDataSources rss q c) c = Except.ok s := by
  cases rss with
  | none => exact ⟨rssUnavailableNotice, rfl⟩
  | some r =>
    match hf : fetchArticles r q with
    | .error e =>
      exact ⟨rssUnavailableNotice, by simp [getRealPropertyDataSources, hf,
        buildRssContext, fallbackDataSources]⟩
    | .ok articles =>
      match articles with
      | [] =>
        exact ⟨rssUnavailableNotice, by simp [getRealPropertyDataSources, hf,
          buildRssContext]⟩
      | a :: as =>
        have hsrc : getRealPropertyDataSources (some r) q c =
            (a :: as).map mkRssNewsSource := by
          simp [getRealPropertyDataSources, hf]
        obtain ⟨bs, hbs⟩ : ∃ bs, mapExcept sourceBlock
            (pyEnum 1 (((a :: as).map mkRssNewsSource).take 6)) = .ok bs := by
          apply mapExcept_ok_of_forall
          intro p hp
          have h3 : p.2 ∈ (a :: as).map mkRssNewsSource :=
            List.mem_of_mem_take (pyEnum_mem_snd hp)
          obtain ⟨b, _, hb⟩ := List.mem_map.mp h3
          refine ⟨sourceBlockText p.1 p.2 b.published b.link, sourceBlock_ok ?_ ?_⟩
          · rw [← hb]; rfl
          · rw [← hb]; rfl
        refine ⟨rssContextHeader c ++ (concatAll bs ++ rssContextFooter), ?_⟩
        rw [hsrc]
        have hred : buildRssContext q ((a :: as).map mkRssNewsSource) c =
            match mapExcept sourceBlock
                (pyEnum 1 (((a :: as).map mkRssNewsSource).take 6)) with
            | .error e => .error e
            | .ok blocks =>
              .ok (rssContextHeader c ++ (concatAll blocks ++ rssContextFooter)) := rfl
        rw [hred, hbs]

/-- The Claude call stage raises on every input: the keyword `context` of
the call at property_service.py line 31 matches no parameter of
`analyze_with_claude`. -/
theorem callAnalyzeWithClaude_raises (svc : LLMService) (q ctx : String) :
    callAnalyzeWithClaude svc q ctx = .error claudeKwargTypeError := rfl

/-- The try block of `analyze_property_question` raises TypeError at the
Claude call on every input, so it never reaches the Gemini or formatting
stages. -/
theorem analyzeBody_raises (svc : LLMService) (rss : Option RssCollab)
    (q : String) (c : Clock) :
    analyzeBody svc rss q c = .error claudeKwargTypeError := by
  obtain ⟨s, hs⟩ := buildRssContext_sources_ok rss q c
  simp only [analyzeBody]
  rw [hs]
  rfl

/-! ### Concrete fixtures used by the closed theorems -/

def clock0 : Clock :=
  { dateStr := "2026-10-12", dateTimeStr := "2026-10-12 09:00",
    prettyStr := "October 12, 2026 at 09:00 AM" }

/-- A service state with both providers available and both underlying
network calls succeeding. -/
def svcBothOk : LLMService :=
  { claudeAvailable := true, geminiAvailable := true,
    workingClaudeModel := some "claude-3-5-sonnet-20241022",
    workingGeminiModel := some "gemini-1.5-flash",
    claudeRespond := fun _ => .ok ("CLAUDE STRATEGIC TEXT", 2),
    geminiRespond := fun _ => .ok ("GEMINI COMPREHENSIVE TEXT", 3) }

/-- A service state with both providers unavailable. -/
def svcNone : LLMService :=
  { claudeAvailable := false, geminiAvailable := false,
    workingClaudeModel := none, workingGeminiModel := none,
    claudeRespond := fun _ => .error "no client",
    geminiRespond := fun _ => .error "no client" }

/-- The question of the C1 scenario. -/
def scenarioQuestion : String := "What are current property market trends?"

/-! ### Claim theorems -/

/-- C1. Claim: for the question "What are current property market trends?"
with both providers available and their underlying calls succeeding,
`analyze_property_question` returns success == true with both stage flags
true and the final answer containing the Gemini text. What the code does
instead: the call at property_service.py line 31 passes a `context`
keyword that `analyze_with_claude` (llm_service.py line 111) does not
declare, so every run raises TypeError, is caught at line 65, and returns
the three-key error result with success == false and the fallback answer —
even with both providers available and succeeding. -/
theorem c1_scenario_run_fails_with_typeerror :
    svcBothOk.claudeAvailable = true ∧ svcBothOk.geminiAvailable = true ∧
    analyzePropertyQuestion svcBothOk none scenarioQuestion clock0 =
      .ok (.failure claudeKwargTypeError.str (generateFallbackAnswer scenarioQuestion)) ∧
    PipelineOutcome.success
      (.failure claudeKwargTypeError.str (generateFallbackAnswer scenarioQuestion)) = false := by
  refine ⟨rfl, rfl, ?_, rfl⟩
  unfold analyzePropertyQuestion
  rw [analyzeBody_raises]

/-- C2. For every service state, collaborator state, input string
(including the empty string) and clock, `analyze_property_question`
returns a result dictionary and never propagates an exception: the except
handler of property_service.py lines 65-71 catches every exception of the
body, and the handler itself (str of the exception plus the pure fallback
generator) cannot raise. -/
theorem c2_analyze_never_raises (svc : LLMService) (rss : Option RssCollab)
    (question : String) (c : Clock) :
    ∃ r, analyzePropertyQuestion svc rss question c = .ok r := by
  unfold analyzePropertyQuestion
  match h : analyzeBody svc rss question c with
  | .ok r => exact ⟨r, rfl⟩
  | .error e => exact ⟨.failure e.str (generateFallbackAnswer question), rfl⟩

/-- C3 counterexample. With both providers unavailable (concrete state
`svcNone`), the claim says the returned result has success == true; the
run returns success == false (the stage-2 TypeError is caught and the
error dictionary returned). -/
theorem c3_counterexample :
    svcNone.claudeAvailable = false ∧ svcNone.geminiAvailable = false ∧
    ¬ ∃ r, analyzePropertyQuestion svcNone none scenarioQuestion clock0 = .ok r ∧
        r.success = true := by
  refine ⟨rfl, rfl, ?_⟩
  have h : analyzePropertyQuestion svcNone none scenarioQuestion clock0 =
      .ok (.failure claudeKwargTypeError.str (generateFallbackAnswer scenarioQuestion)) := by
    unfold analyzePropertyQuestion
    rw [analyzeBody_raises]
  rintro ⟨r, hr, hs⟩
  rw [h] at hr
  cases hr
  exact Bool.noConfusion hs

/-- C3 amended: if both providers are unavailable, the returned result has
success == false and its final answer equals exactly the Fallback
Generator output for the question; the answer is deterministic — it does
not depend on the service state, the collaborator state or the clock. -/
theorem c3_both_unavailable_exact_fallback (svc₁ svc₂ : LLMService)
    (rss₁ rss₂ : Option RssCollab) (q : String) (c₁ c₂ : Clock)
    (_h₁ : svc₁.claudeAvailable = false) (_h₂ : svc₁.geminiAvailable = false)
    (_h₃ : svc₂.claudeAvailable = false) (_h₄ : svc₂.geminiAvailable = false) :
    ∃ r₁ r₂, analyzePropertyQuestion svc₁ rss₁ q c₁ = .ok r₁ ∧
      analyzePropertyQuestion svc₂ rss₂ q c₂ = .ok r₂ ∧
      r₁.success = false ∧ r₁.answer = generateFallbackAnswer q ∧
      r₂.answer = r₁.answer := by
  have e₁ : analyzePropertyQuestion svc₁ rss₁ q c₁ =
      .ok (.failure claudeKwargTypeError.str (generateFallbackAnswer q)) := by
    unfold analyzePropertyQuestion; rw [analyzeBody_raises]
  have e₂ : analyzePropertyQuestion svc₂ rss₂ q c₂ =
      .ok (.failure claudeKwargTypeError.str (generateFallbackAnswer q)) := by
    unfold analyzePropertyQuestion; rw [analyzeBody_raises]
  exact ⟨_, _, e₁, e₂, rfl, rfl, rfl⟩

theorem c3_witness :
    svcNone.claudeAvailable = false ∧ svcNone.geminiAvailable = false ∧
    ∃ r₁ r₂, analyzePropertyQuestion svcNone none scenarioQuestion clock0 = .ok r₁ ∧
      analyzePropertyQuestion svcNone none scenarioQuestion clock0 = .ok r₂ ∧
      r₁.success = false ∧ r₁.answer = generateFallbackAnswer scenarioQuestion ∧
      r₂.answer = r₁.answer :=
  ⟨rfl, rfl,
   c3_both_unavailable_exact_fallback svcNone svcNone none none scenarioQuestion
     clock0 clock0 rfl rfl rfl rfl⟩

/-- C10. Whenever a stage inside the try block of
`analyze_property_question` raises, the returned dictionary has exactly
the keys success (false), error and final_answer, and none of the
success-shape keys. -/
theorem c10_error_result_keys (svc : LLMService) (rss : Option RssCollab)
    (q : String) (c : Clock) (e : PyErr)
    (h : analyzeBody svc rss q c = .error e) :
    ∃ r, analyzePropertyQuestion svc rss q c = .ok r ∧
      r.success = false ∧
      r.keys = ["success", "error", "final_answer"] ∧
      ∀ k ∈ (["question", "question_type", "processing_stages", "claude_result",
              "gemini_result", "data_sources"] : List String),
        k ∉ r.keys := by
  refine ⟨.failure e.str (generateFallbackAnswer q), ?_, rfl, rfl, ?_⟩
  · unfold analyzePropertyQuestion; rw [h]
  · have hks : ∀ k ∈ (["question", "question_type", "processing_stages", "claude_result",
        "gemini_result", "data_sources"] : List String),
        k ∉ (["success", "error", "final_answer"] : List String) := by decide
    intro k hk
    exact hks k hk

theorem c10_witness :
    analyzeBody svcNone none scenarioQuestion clock0 = .error claudeKwargTypeError ∧
    ∃ r, analyzePropertyQuestion svcNone none scenarioQuestion clock0 = .ok r ∧
      r.success = false ∧
      r.keys = ["success", "error", "final_answer"] ∧
      ∀ k ∈ (["question", "question_type", "processing_stages", "claude_result",
              "gemini_result", "data_sources"] : List String),
        k ∉ r.keys :=
  ⟨analyzeBody_raises svcNone none scenarioQuestion clock0,
   c10_error_result_keys svcNone none scenarioQuestion clock0 claudeKwargTypeError
     (analyzeBody_raises svcNone none scenarioQuestion clock0)⟩

/-- C4. When provider A succeeded, both the enhanced context
(`_build_enhanced_context`) and the Gemini prompt
(`_create_gemini_prompt`, fed `claude_result.get(\'analysis\', \'\')` as
the pipeline does) contain the full text of provider A output; when
provider A failed, the enhanced context equals the prior context
unchanged and the Gemini prompt equals the base prompt exactly — no
placeholder or error string in either. -/
theorem c4_prompt_chaining (q rss_context : String) (cr : ProviderResult) :
    (∀ a m t p, cr = .ok a m t p →
        containsStr a (buildEnhancedContext cr rss_context) ∧
        containsStr a (createGeminiPrompt q cr.getAnalysis)) ∧
    (∀ e, cr = .err e →
        buildEnhancedContext cr rss_context = rss_context ∧
        createGeminiPrompt q cr.getAnalysis = geminiBasePrompt q) := by
  constructor
  · rintro a m t p rfl
    constructor
    · exact ⟨rss_context.data ++ enhancedContextPre.data, enhancedContextPost.data,
        by simp [buildEnhancedContext, ProviderResult.success, ProviderResult.getAnalysis,
          String.data_append]⟩
    · by_cases ha : a.isEmpty = true
      · rw [(String.isEmpty_iff a).mp ha]
        exact containsStr_empty _
      · have ha2 : a.isEmpty = false := by revert ha; cases a.isEmpty <;> simp
        have hred : createGeminiPrompt q (ProviderResult.getAnalysis (.ok a m t p)) =
            geminiBasePrompt q ++ "\n\nInitial Research Context: " ++ a ++
              "\n\nBuild upon this context to provide your comprehensive analysis." := by
          simp [createGeminiPrompt, ProviderResult.getAnalysis, pyTruthy, ha2]
        rw [hred]
        exact ⟨(geminiBasePrompt q ++ "\n\nInitial Research Context: ").data,
          "\n\nBuild upon this context to provide your comprehensive analysis.".data,
          by simp [String.data_append]⟩
  · rintro e rfl
    exact ⟨rfl, rfl⟩

theorem c4_witness :
    (containsStr "ANALYSIS TEXT"
        (buildEnhancedContext (.ok "ANALYSIS TEXT" "m" 0 "claude") "RSS CONTEXT") ∧
     containsStr "ANALYSIS TEXT"
        (createGeminiPrompt "q" (ProviderResult.getAnalysis (.ok "ANALYSIS TEXT" "m" 0 "claude")))) ∧
    (buildEnhancedContext (.err "boom") "RSS CONTEXT" = "RSS CONTEXT" ∧
     createGeminiPrompt "q" (ProviderResult.getAnalysis (.err "boom")) = geminiBasePrompt "q") :=
  ⟨(c4_prompt_chaining "q" "RSS CONTEXT" (.ok "ANALYSIS TEXT" "m" 0 "claude")).1
      "ANALYSIS TEXT" "m" 0 "claude" rfl,
   (c4_prompt_chaining "q" "RSS CONTEXT" (.err "boom")).2 "boom" rfl⟩

/-- C5. For every composed answer of `_format_comprehensive_answer`, the
primary body (the leading answer part) is the Gemini text if Gemini
succeeded, else the Claude text if Claude succeeded, else the Fallback
Generator text for the question. -/
theorem c5_primary_body (q : String) (cr gr : ProviderResult)
    (ds : List ContextSource) (hrd : Bool) (c : Clock) (ans : String)
    (h : formatComprehensiveAnswer q cr gr ds hrd c = .ok ans) :
    (∀ a m t p, gr = .ok a m t p → startsWithStr a ans) ∧
    (∀ e a m t p, gr = .err e → cr = .ok a m t p → startsWithStr a ans) ∧
    (∀ e₁ e₂, gr = .err e₁ → cr = .err e₂ →
        startsWithStr (generateFallbackAnswer q) ans) := by
  simp only [formatComprehensiveAnswer] at h
  match hs : sourcesSectionParts ds hrd with
  | .error e => rw [hs] at h; cases h
  | .ok src =>
    rw [hs] at h
    cases h
    have hstart : startsWithStr (answerPrimary q cr gr)
        (joinLines ([answerPrimary q cr gr, ""] ++ src ++
          summaryParts cr gr ds hrd c)) :=
      joinLines_startsWith (answerPrimary q cr gr)
        ("" :: (src ++ summaryParts cr gr ds hrd c)) (by simp)
    refine ⟨?_, ?_, ?_⟩
    · rintro a m t p rfl
      exact hstart
    · rintro e a m t p rfl rfl
      exact hstart
    · rintro e₁ e₂ rfl rfl
      exact hstart

theorem c5_witness :
    ∃ ans, formatComprehensiveAnswer "q" (.err "x") (.ok "GEMINI BODY" "m" 1 "gemini")
        [] false clock0 = .ok ans ∧
      startsWithStr "GEMINI BODY" ans := by
  refine ⟨_, rfl, ?_⟩
  exact (c5_primary_body "q" (.err "x") (.ok "GEMINI BODY" "m" 1 "gemini") [] false
    clock0 _ rfl).1 "GEMINI BODY" "m" 1 "gemini" rfl

/-- C6 counterexample. The fallback placeholder list (one source, real-data
flag false) makes `real_data_used` true, because line 58 computes it as
`bool(data_sources)` — list non-emptiness — not from the flags; so the
claimed equivalence with "at least one source carries the genuine-data
flag" is false at this input. -/
theorem c6_counterexample :
    (∀ s ∈ fallbackDataSources clock0, s.real_data = false) ∧
    ¬ ((mkProcessingStages (.err "e1") (.err "e2")
          (fallbackDataSources clock0)).real_data_used = true ↔
        ∃ s ∈ fallbackDataSources clock0, s.real_data = true) := by
  constructor
  · intro s hs
    simp only [fallbackDataSources, List.mem_singleton] at hs
    rw [hs]
  · intro hiff
    obtain ⟨s, hs, hreal⟩ := hiff.mp rfl
    simp only [fallbackDataSources, List.mem_singleton] at hs
    rw [hs] at hreal
    exact Bool.noConfusion hreal

/-- C6 amended: `real_data_used` is true iff the source list is non-empty;
in particular it is TRUE (not false) when the list consists only of the
synthetic fallback placeholder, which itself carries real-data flag
false. -/
theorem c6_real_data_used_is_nonemptiness (cr gr : ProviderResult)
    (ds : List ContextSource) :
    ((mkProcessingStages cr gr ds).real_data_used = true ↔ ds ≠ []) ∧
    (∀ c : Clock, (∀ s ∈ fallbackDataSources c, s.real_data = false) ∧
      (mkProcessingStages cr gr (fallbackDataSources c)).real_data_used = true) := by
  constructor
  · cases ds <;> simp [mkProcessingStages]
  · intro c
    refine ⟨?_, rfl⟩
    intro s hs
    simp only [fallbackDataSources, List.mem_singleton] at hs
    rw [hs]

theorem c6_witness :
    ((mkProcessingStages (.err "e1") (.err "e2") []).real_data_used = true ↔
      ([] : List ContextSource) ≠ []) ∧
    (∀ c : Clock, (∀ s ∈ fallbackDataSources c, s.real_data = false) ∧
      (mkProcessingStages (.err "e1") (.err "e2")
        (fallbackDataSources c)).real_data_used = true) :=
  c6_real_data_used_is_nonemptiness (.err "e1") (.err "e2") []

/-- The take-6 cap of `_build_rss_context`: sources beyond the sixth never
influence the rendered context. -/
theorem buildRssContext_take6 (q : String) (ds : List ContextSource) (c : Clock) :
    buildRssContext q (ds.take 6) c = buildRssContext q ds c := by
  cases ds with
  | nil => rfl
  | cons s t =>
    have harg : (s :: t.take 5).take 6 = (s :: t).take 6 := by
      show s :: (t.take 5).take 5 = s :: t.take 5
      rw [List.take_take, Nat.min_self]
    show buildRssContext q (s :: t.take 5) c = buildRssContext q (s :: t) c
    simp only [buildRssContext, harg]

/-- A genuine rss_news source whose title shares no character with the
neutral notice check below. -/
def rssSourceQ : ContextSource :=
  { source := "SRC", title := "QQQQ", summary := "SUM",
    link := some "https://x", published := some "2026-10-10",
    typ := "rss_news", date := "2026-10-10", relevance := "high",
    real_data := true }

/-- A source list whose first element lacks the genuine-data flag but
whose second element carries it. -/
def dsMixed : List ContextSource := fallbackDataSources clock0 ++ [rssSourceQ]

/-- C7 counterexample. `_build_rss_context` tests only the FIRST source
for the genuine-data flag (`not data_sources[0].get(\'real_data\')`): on a
list whose second source carries the flag it still returns the neutral
notice, which does not mention that source — the claim says a list in
which some source carries the flag is rendered with each source title. -/
theorem c7_counterexample :
    (∃ s ∈ dsMixed, s.real_data = true) ∧
    buildRssContext "q" dsMixed clock0 = .ok rssUnavailableNotice ∧
    ¬ containsStr "QQQQ" rssUnavailableNotice ∧
    ¬ (∀ r, buildRssContext "q" dsMixed clock0 = .ok r → containsStr "QQQQ" r) := by
  have hnc : ¬ containsStr "QQQQ" rssUnavailableNotice := by
    intro hc
    have hq := containsStr_mem hc 'Q' (by decide)
    revert hq
    decide
  refine ⟨⟨rssSourceQ,
    List.mem_append_right _ (List.mem_singleton.mpr rfl), rfl⟩, rfl, hnc, ?_⟩
  intro hall
  exact hnc (hall rssUnavailableNotice rfl)

/-- C7 amended: the neutral notice is returned when the list is empty or
its FIRST source lacks the genuine-data flag; when the first source
carries the flag (and the enumerated sources have their `published` and
`link` keys, as every rss_news source does), the render succeeds, only the
first six sources matter, and the output carries the generation timestamp
and, for each of the first six sources, its title, origin, summary,
publish date and link, plus the distinguishing marker for sources flagged
high. -/
theorem c7_build_rss_context (q : String) (ds : List ContextSource) (c : Clock) :
    (ds = [] → buildRssContext q ds c = .ok rssUnavailableNotice) ∧
    (∀ s t, ds = s :: t → s.real_data = false →
        buildRssContext q ds c = .ok rssUnavailableNotice) ∧
    (∀ s t, ds = s :: t → s.real_data = true →
      (∀ p ∈ pyEnum 1 (ds.take 6), p.2.published.isSome ∧ p.2.link.isSome) →
      ∃ r, buildRssContext q ds c = .ok r ∧
        buildRssContext q (ds.take 6) c = .ok r ∧
        containsStr c.dateTimeStr r ∧
        ∀ p ∈ pyEnum 1 (ds.take 6),
          containsStr p.2.title r ∧ containsStr p.2.source r ∧
          containsStr p.2.summary r ∧
          (∀ pub, p.2.published = some pub → containsStr pub r) ∧
          (∀ lnk, p.2.link = some lnk → containsStr lnk r) ∧
          (p.2.relevance = "high" → containsStr highRelevanceMarker r)) := by
  refine ⟨fun h => by subst h; rfl, ?_, ?_⟩
  · rintro s t rfl hfake
    simp [buildRssContext, hfake]
  · rintro s t rfl hreal hkeys
    obtain ⟨bs, hbs⟩ : ∃ bs, mapExcept sourceBlock
        (pyEnum 1 ((s :: t).take 6)) = .ok bs := by
      apply mapExcept_ok_of_forall
      intro p hp
      obtain ⟨hpub, hlnk⟩ := hkeys p hp
      obtain ⟨pub, hpub2⟩ := Option.isSome_iff_exists.mp hpub
      obtain ⟨lnk, hlnk2⟩ := Option.isSome_iff_exists.mp hlnk
      exact ⟨_, sourceBlock_ok hpub2 hlnk2⟩
    have hred : buildRssContext q (s :: t) c =
        match mapExcept sourceBlock (pyEnum 1 ((s :: t).take 6)) with
        | .error e => .error e
        | .ok blocks =>
          .ok (rssContextHeader c ++ (concatAll blocks ++ rssContextFooter)) := by
      have hif : buildRssContext q (s :: t) c =
          if !s.real_data then .ok rssUnavailableNotice
          else match mapExcept sourceBlock (pyEnum 1 ((s :: t).take 6)) with
            | .error e => .error e
            | .ok blocks =>
              .ok (rssContextHeader c ++ (concatAll blocks ++ rssContextFooter)) := rfl
      rw [hif, hreal]
      rfl
    refine ⟨rssContextHeader c ++ (concatAll bs ++ rssContextFooter), ?_, ?_, ?_, ?_⟩
    · rw [hred, hbs]
    · rw [buildRssContext_take6, hred, hbs]
    · exact containsStr_right _ (containsStr_intro _ _ _)
    · intro p hp
      obtain ⟨hpub, hlnk⟩ := hkeys p hp
      obtain ⟨pub, hpub2⟩ := Option.isSome_iff_exists.mp hpub
      obtain ⟨lnk, hlnk2⟩ := Option.isSome_iff_exists.mp hlnk
      obtain ⟨b, hbmem, hfb⟩ := mapExcept_mem hbs hp
      have hbval : b = sourceBlockText p.1 p.2 pub lnk :=
        (Except.ok.inj ((sourceBlock_ok hpub2 hlnk2).symm.trans hfb)).symm
      have hbin : containsStr b (concatAll bs) := containsStr_concatAll hbmem
      have hinr : ∀ x : String, containsStr x b →
          containsStr x (rssContextHeader c ++ (concatAll bs ++ rssContextFooter)) :=
        fun x hx =>
          containsStr_left _ (containsStr_right _ (containsStr_trans hx hbin))
      subst hbval
      refine ⟨hinr _ (containsStr_concatAll (by simp [sourceBlockText])),
        hinr _ (containsStr_concatAll (by simp [sourceBlockText])),
        hinr _ (containsStr_concatAll (by simp [sourceBlockText])), ?_, ?_, ?_⟩
      · intro pub2 hpub3
        rw [hpub2] at hpub3
        cases Option.some.inj hpub3
        exact hinr _ (containsStr_concatAll (by simp [sourceBlockText]))
      · intro lnk2 hlnk3
        rw [hlnk2] at hlnk3
        cases Option.some.inj hlnk3
        exact hinr _ (containsStr_concatAll (by simp [sourceBlockText]))
      · intro hrel
        have hif : (if p.2.relevance == "high" then highRelevanceMarker else "") =
            highRelevanceMarker := by simp [hrel]
        refine hinr _ (containsStr_concatAll ?_)
        rw [hif]
        simp

/-- A concrete fetched article used by the C7 and C8 witnesses. -/
def articleW : Article :=
  { source := "Smart Property Investment", title := "Brisbane market update",
    summary := "Prices rose.", link := "https://example.com/a",
    published := "2026-10-11", brisbane_relevant := true }

theorem c7_witness :
    buildRssContext "x" [] clock0 = .ok rssUnavailableNotice ∧
    ∃ r, buildRssContext "x" [mkRssNewsSource articleW] clock0 = .ok r ∧
      containsStr clock0.dateTimeStr r ∧ containsStr articleW.title r := by
  refine ⟨(c7_build_rss_context "x" [] clock0).1 rfl, ?_⟩
  obtain ⟨r, h1, _h2, h3, h4⟩ :=
    (c7_build_rss_context "x" [mkRssNewsSource articleW] clock0).2.2
      (mkRssNewsSource articleW) [] rfl rfl
      (by intro p hp
          have hp2 : p ∈ [(1, mkRssNewsSource articleW)] := hp
          rw [List.mem_singleton.mp hp2]
          exact ⟨rfl, rfl⟩)
  have hp : (1, mkRssNewsSource articleW) ∈
      pyEnum 1 ([mkRssNewsSource articleW].take 6) :=
    List.mem_singleton.mpr rfl
  obtain ⟨ht, _⟩ := h4 (1, mkRssNewsSource articleW) hp
  exact ⟨r, h1, h3, ht⟩

/-- C8. Every source built by the general branch of
`UpdatedPropertyService._get_real_data_sources` comes from a fetched
article; a summary of more than 300 characters is cut at 300 characters
and suffixed with the ellipsis marker (total 303), and a summary of at
most 300 characters is passed through unmodified. -/
theorem c8_summary_truncation (general_news : List Article) (src : UpdatedSource)
    (h : src ∈ getRealDataSourcesGeneral general_news) :
    ∃ a, a ∈ general_news ∧
      (300 < a.summary.data.length →
          src.summary.data = a.summary.data.take 300 ++ "...".data ∧
          src.summary.data.length = 303 ∧
          endsWithStr "..." src.summary) ∧
      (a.summary.data.length ≤ 300 → src.summary = a.summary) := by
  simp only [getRealDataSourcesGeneral] at h
  obtain ⟨p, hp, hsrc⟩ := List.mem_map.mp h
  refine ⟨p.2, List.mem_of_mem_take (pyEnum_mem_snd hp), ?_, ?_⟩
  · intro hlong
    have hs : src.summary = pySliceStr p.2.summary 300 ++ "..." := by
      rw [← hsrc]
      show truncatedSummary p.2.summary = _
      simp only [truncatedSummary]
      rw [if_pos hlong]
    have hlen : (p.2.summary.data.take 300).length = 300 := by
      rw [List.length_take]
      exact Nat.min_eq_left (by omega)
    refine ⟨?_, ?_, ?_⟩
    · rw [hs]
      simp [pySliceStr, String.data_append]
    · rw [hs]
      simp [pySliceStr, String.data_append, hlen]
    · exact ⟨(pySliceStr p.2.summary 300).data, by rw [hs]; simp [String.data_append]⟩
  · intro hshort
    rw [← hsrc]
    show truncatedSummary p.2.summary = _
    simp only [truncatedSummary]
    rw [if_neg (by omega)]

/-- An article whose summary exceeds the 300-character budget. -/
def longSummaryArticle : Article :=
  { source := "S", title := "T", summary := String.mk (List.replicate 301 'a'),
    link := "L", published := "P", brisbane_relevant := false }

theorem c8_witness :
    (mkAusPropertySource 0 longSummaryArticle).summary.data.length = 303 ∧
    endsWithStr "..." (mkAusPropertySource 0 longSummaryArticle).summary ∧
    (mkAusPropertySource 0 articleW).summary = articleW.summary := by
  obtain ⟨a, ha, hlong, _⟩ :=
    c8_summary_truncation [longSummaryArticle]
      (mkAusPropertySource 0 longSummaryArticle)
      (by simp [getRealDataSourcesGeneral, pyEnum])
  simp only [List.mem_singleton] at ha
  subst ha
  obtain ⟨_, hlen, hend⟩ := hlong (by
    show 300 < (List.replicate 301 'a').length
    rw [List.length_replicate]
    omega)
  obtain ⟨a2, ha2, _, hshort⟩ :=
    c8_summary_truncation [articleW] (mkAusPropertySource 0 articleW)
      (by simp [getRealDataSourcesGeneral, pyEnum])
  simp only [List.mem_singleton] at ha2
  subst ha2
  exact ⟨hlen, hend, hshort (by simp [articleW])⟩

/-- C9. When the RSS collaborator is absent, or present but its fetch for
the question raises, `_get_real_property_data_sources` returns exactly the
one-element synthetic placeholder list whose real-data flag is false — it
never returns an empty list and never propagates the exception. -/
theorem c9_collaborator_failure_placeholder (q : String) (c : Clock) :
    (getRealPropertyDataSources none q c = fallbackDataSources c ∧
      (getRealPropertyDataSources none q c).length = 1 ∧
      ∀ s ∈ getRealPropertyDataSources none q c, s.real_data = false) ∧
    (∀ (r : RssCollab) (e : String), fetchArticles r q = .error e →
      getRealPropertyDataSources (some r) q c = fallbackDataSources c ∧
      (getRealPropertyDataSources (some r) q c).length = 1 ∧
      ∀ s ∈ getRealPropertyDataSources (some r) q c, s.real_data = false) := by
  have hfb : ∀ s ∈ fallbackDataSources c, s.real_data = false := by
    intro s hs
    simp only [fallbackDataSources, List.mem_singleton] at hs
    rw [hs]
  refine ⟨⟨rfl, rfl, hfb⟩, ?_⟩
  intro r e he
  have hg : getRealPropertyDataSources (some r) q c = fallbackDataSources c := by
    simp [getRealPropertyDataSources, he]
  rw [hg]
  exact ⟨rfl, rfl, hfb⟩

/-- An RSS collaborator whose fetches always raise. -/
def failingRss : RssCollab :=
  { get_brisbane_news := fun _ => .error "connection refused",
    get_recent_news := fun _ => .error "connection refused" }

theorem c9_witness :
    (getRealPropertyDataSources none scenarioQuestion clock0 =
        fallbackDataSources clock0 ∧
      (getRealPropertyDataSources none scenarioQuestion clock0).length = 1 ∧
      ∀ s ∈ getRealPropertyDataSources none scenarioQuestion clock0,
        s.real_data = false) ∧
    (getRealPropertyDataSources (some failingRss) scenarioQuestion clock0 =
        fallbackDataSources clock0 ∧
      (getRealPropertyDataSources (some failingRss) scenarioQuestion clock0).length = 1 ∧
      ∀ s ∈ getRealPropertyDataSources (some failingRss) scenarioQuestion clock0,
        s.real_data = false) := by
  obtain ⟨h1, h2⟩ := c9_collaborator_failure_placeholder scenarioQuestion clock0
  exact ⟨h1, h2 failingRss "connection refused" (by simp [fetchArticles, failingRss])⟩

end CuramAi
